import Mathlib

/-!
Shallow embedding of the `mcp-client-auth` TypeScript library (modules
`mcp-oauth.ts` and `mcp-client.ts`): the stored data model, token-expiry
predicates, metadata discovery fallback, dynamic client registration inside
`init`, the PKCE code-for-token exchange, the authenticated `ky` wrapper's
401 hook, `getAccessToken`, `reset`, `revokeToken`, the auth-required probe
and the HTTPS guard of `McpClient.connect`.

Machine integers from the source (Unix timestamps in seconds, HTTP status
codes) are modelled as `Int`/`Nat`; fallible operations are modelled with
`Except`/`Option`; network effects are modelled by passing the observed
network outcome as an explicit argument.
-/

namespace McpClientAuth

/-- `StoredClient` from `mcp-oauth.ts`: persisted client registration data. -/
structure StoredClient where
  client_id : String
  client_secret : Option String := none
  client_secret_expires_at : Option Int := none
deriving Repr, DecidableEq

/-- `StoredToken` from `mcp-oauth.ts`: persisted token data.
`expires_at` is a Unix timestamp in seconds. -/
structure StoredToken where
  access_token : String
  refresh_token : Option String := none
  expires_at : Option Int := none
  token_type : Option String := none
deriving Repr, DecidableEq

/-- `StoredOAuthData` from `mcp-oauth.ts`: client registration plus token. -/
structure StoredOAuthData where
  client : Option StoredClient := none
  token : Option StoredToken := none
deriving Repr, DecidableEq

/-- `ServerMetadata` from `mcp-oauth.ts` (RFC8414 discovery document shape). -/
structure ServerMetadata where
  issuer : String
  authorization_endpoint : String
  token_endpoint : String
  registration_endpoint : Option String := none
  response_types_supported : Option (List String) := none
  grant_types_supported : Option (List String) := none
  code_challenge_methods_supported : Option (List String) := none
deriving Repr, DecidableEq

/-- `ClientRegistrationResponse` from `mcp-oauth.ts`. -/
structure ClientRegistrationResponse where
  client_id : String
  client_secret : Option String := none
  client_secret_expires_at : Option Int := none
deriving Repr, DecidableEq

/-- `AuthorizationRequest` from `mcp-oauth.ts`: the ephemeral PKCE request. -/
structure AuthorizationRequest where
  url : String
  state : String
  codeVerifier : String
deriving Repr, DecidableEq

-- ------------------------- Token expiry predicates -------------------------

/-- JavaScript truthiness of an optional string (`!x` in the source is false
for `undefined` and for the empty string). -/
def truthy (s : Option String) : Bool :=
  match s with
  | none => false
  | some v => v != ""

/-- `McpOAuth.isTokenExpired` from `mcp-oauth.ts`:
`if (!this.oauthData.token?.expires_at) return false;`
`const now = Math.floor(Date.now() / 1000);`
`return now > this.oauthData.token.expires_at - 300;`
The guard is a JS falsy check, so both an absent `expires_at` and
`expires_at = 0` mean "no recorded expiry". The current time is passed
explicitly. -/
def isTokenExpired (expiresAt : Option Int) (now : Int) : Bool :=
  match expiresAt with
  | none => false
  | some e => if e = 0 then false else decide (now > e - 300)

/-- `McpOAuth.hasValidToken` from `mcp-oauth.ts`:
`return !!this.oauthData.token && !this.isTokenExpired();` -/
def hasValidToken (tok : Option StoredToken) (now : Int) : Bool :=
  tok.isSome && !(isTokenExpired (tok.bind (fun t => t.expires_at)) now)

-- ------------------------- Metadata discovery -------------------------

/-- `McpOAuth.discoverMetadata` from `mcp-oauth.ts`. The network outcome of
the well-known fetch is passed explicitly: `some m` when the fetch returned
a parsed `ServerMetadata` body, `none` for any failure (network error,
non-2xx, malformed body, timeout). `authBaseUrl` is the server origin
(`protocol + "//" + host`). On failure the source falls back to
`DEFAULT_ENDPOINTS` (`/authorize`, `/token`, `/register`). -/
def discoverMetadata (authBaseUrl : String) (fetched : Option ServerMetadata) :
    ServerMetadata :=
  match fetched with
  | some m => m
  | none =>
    { issuer := authBaseUrl
      authorization_endpoint := authBaseUrl ++ "/authorize"
      token_endpoint := authBaseUrl ++ "/token"
      registration_endpoint := some (authBaseUrl ++ "/register") }

-- ------------------------- getAccessToken -------------------------

/-- Failure conditions thrown by `McpOAuth.getAccessToken` / `refreshAccessToken`. -/
inductive TokenError where
  | noToken
  | expiredNoRefresh
  | refreshFailed
deriving Repr, DecidableEq

/-- `McpOAuth.getAccessToken` from `mcp-oauth.ts`:
throws when no token is held; when the held token is expired, refreshes if
`this.oauthData.token.refresh_token` is truthy — a JS truthy check, so an
absent or empty-string refresh token both take the expired-no-refresh throw
(the network outcome of `refreshTokenGrant` is the explicit argument
`refreshResult`: `some t2` on success, `none` on failure); returns the
current `access_token` together with the number of refresh-token exchanges
performed (0 or 1). -/
def getAccessToken (tok : Option StoredToken) (now : Int)
    (refreshResult : Option StoredToken) : Except TokenError (String × Nat) :=
  match tok with
  | none => .error .noToken
  | some t =>
    if isTokenExpired t.expires_at now then
      if truthy t.refresh_token then
        match refreshResult with
        | some t2 => .ok (t2.access_token, 1)
        | none => .error .refreshFailed
      else .error .expiredNoRefresh
    else
      .ok (t.access_token, 0)

-- ------------------------- PKCE code-for-token exchange -------------------------

/-- The state-relevant data of one `client.authorizationCodeGrant` call as
issued by `McpOAuth.exchangeCodeForToken`: the `state` query parameter it
sets on the callback URL it builds, and the `expectedState` check it passes. -/
structure ExchangeAttempt where
  urlCode : String
  urlState : String
  expectedState : String
deriving Repr, DecidableEq

/-- `McpOAuth.exchangeCodeForToken` from `mcp-oauth.ts` (callback-URL and
check construction): `callbackUrl.searchParams.set('code', code);`
`callbackUrl.searchParams.set('state', state);` then
`authorizationCodeGrant(config, callbackUrl, { pkceCodeVerifier, expectedState: state })`.
Both the URL's `state` parameter and `expectedState` come from the same
caller-supplied `state` argument. -/
def exchangeCodeForToken (code state : String) : ExchangeAttempt :=
  { urlCode := code, urlState := state, expectedState := state }

/-- The state validation performed inside the third-party
`client.authorizationCodeGrant` (openid-client): the callback URL's `state`
parameter must equal the `expectedState` check or the grant throws before
any token-exchange request is sent. -/
def grantStateAccepted (a : ExchangeAttempt) : Bool :=
  a.urlState == a.expectedState

/-- Whether the `exchangeCodeForToken(code, state, ...)` call reaches the
point of sending a token-exchange request to the token endpoint, i.e. the
grant's state validation passes. -/
def tokenExchangeRequestSent (code state : String) : Bool :=
  grantStateAccepted (exchangeCodeForToken code state)

/-- Outcome of one inbound request handled by the local callback server. -/
inductive CallbackOutcome where
  | stateMismatch
  | oauthError (desc : String)
  | missingCode
  | codeReceived (code : String)
deriving Repr, DecidableEq

/-- The final step of the `waitForCallback` handler from the legacy revision
in `src/mcp-oauth.ts`: `if (!code)` is a JS falsy check, so an absent or
empty-string `code` both fail with the missing-code condition. -/
def callbackCodeStep (qCode : Option String) : CallbackOutcome :=
  match qCode with
  | some c => if c != "" then .codeReceived c else .missingCode
  | none => .missingCode

/-- The request handler of `McpOAuth.waitForCallback` from the legacy
revision in `src/mcp-oauth.ts`: the callback's query parameters (each
`none` when absent) are checked in order — `state` against the generated
`expectedState` with strict `!==`, then `error` with a JS truthy check
(an empty-string `error` is skipped; `error_description || error` falls back
to `error` when the description is absent or empty), then `code`. -/
def waitForCallback (expectedState : String) (qState qError qErrorDesc qCode : Option String) :
    CallbackOutcome :=
  if qState ≠ some expectedState then
    .stateMismatch
  else
    match qError with
    | some e =>
      if e != "" then
        .oauthError
          (match qErrorDesc with
            | some d => if d != "" then d else e
            | none => e)
      else callbackCodeStep qCode
    | none => callbackCodeStep qCode

-- ------------------------- Authenticated ky wrapper (401 hook) -------------------------

/-- The `afterResponse` hook installed by `McpOAuth.ky` from `mcp-oauth.ts`:
returns `true` (refresh the token, then throw to signal a retry) exactly when
`response.status === 401 && this.oauthData.token?.refresh_token`. -/
def afterResponseHook (status : Nat) (hasRefreshToken : Bool) : Bool :=
  status == 401 && hasRefreshToken

/-- Final outcome of a request sent through the wrapper pipeline. -/
inductive PipelineOutcome where
  | delivered (status : Nat)
  | errorPropagated
deriving Repr, DecidableEq

/-- Trace of a request through the wrapper pipeline: how many refresh-token
exchanges the hook performed, how many requests were sent, and the outcome. -/
structure PipelineResult where
  refreshCount : Nat
  requestCount : Nat
  outcome : PipelineOutcome
deriving Repr, DecidableEq

/-- The `ky` pipeline around the hook: each element of `statuses` is the HTTP
status the server answers to the corresponding attempt. When the hook fires
it first performs a refresh and then throws; the pipeline retries while its
retry budget `retriesLeft` is positive, and propagates the thrown error once
the budget is exhausted. When the hook does not fire the response is
delivered to the caller. (The retry budget belongs to the third-party `ky`
library and is left as a parameter; the hook itself is from the source.) -/
def runPipeline (hasRT : Bool) (retriesLeft : Nat) (statuses : List Nat) :
    PipelineResult :=
  match statuses with
  | [] => ⟨0, 0, .errorPropagated⟩
  | s :: rest =>
    if afterResponseHook s hasRT then
      match retriesLeft with
      | 0 => ⟨1, 1, .errorPropagated⟩
      | n + 1 =>
        let r := runPipeline hasRT n rest
        ⟨r.refreshCount + 1, r.requestCount + 1, r.outcome⟩
    else
      ⟨0, 1, .delivered s⟩

-- ------------------------- reset -------------------------

/-- The in-memory and persisted state of one `McpOAuth` instance that
`reset` can touch: `oauthData` (in-memory), the option-level client
credentials, and the store file contents (`none` = absent). -/
structure OAuthInstanceState where
  oauthData : StoredOAuthData
  optsClientId : Option String
  optsClientSecret : Option String
  storeContents : Option StoredOAuthData
deriving Repr, DecidableEq

/-- `JsonOAuthStore.clear` from `mcp-oauth.ts`: unlinks the file (ignoring a
missing file), leaving the store absent. -/
def JsonOAuthStore.clear (_contents : Option StoredOAuthData) : Option StoredOAuthData :=
  none

/-- `JsonOAuthStore.load` from `mcp-oauth.ts`: returns the parsed file
contents, or `undefined` when the file is absent/unreadable. -/
def JsonOAuthStore.load (contents : Option StoredOAuthData) : Option StoredOAuthData :=
  contents

/-- `McpOAuth.reset` from `mcp-oauth.ts`:
`this.oauthData = {}; if (clearStorage) { await this.opts.store!.clear(); }` -/
def reset (s : OAuthInstanceState) (clearStorage : Bool) : OAuthInstanceState :=
  { s with
    oauthData := {}
    storeContents :=
      if clearStorage then JsonOAuthStore.clear s.storeContents else s.storeContents }

-- ------------------------- revokeToken -------------------------

/-- Trace of one `McpOAuth.revokeToken` call: the token strings submitted to
`client.tokenRevocation` in order, whether the in-memory token was cleared,
and whether the cleared state was persisted via `store.save`. -/
structure RevokeOutcome where
  attempted : List String
  tokenCleared : Bool
  persisted : Bool
deriving Repr, DecidableEq

/-- The second revocation step of `McpOAuth.revokeToken`:
`if (this.oauthData.token?.access_token)` is a JS truthy check, so an
empty-string access token is not submitted; a successful run ends by
clearing the in-memory token and saving the cleared state. -/
def revokeAccessStep (t : StoredToken) (attempted : List String)
    (revokeOk : String → Bool) : Except RevokeOutcome RevokeOutcome :=
  if t.access_token != "" then
    if revokeOk t.access_token then .ok ⟨attempted ++ [t.access_token], true, true⟩
    else .error ⟨attempted ++ [t.access_token], false, false⟩
  else .ok ⟨attempted, true, true⟩

/-- `McpOAuth.revokeToken` from `mcp-oauth.ts`: revokes the refresh token if
`this.oauthData.token?.refresh_token` is truthy (a JS truthy check — an
absent or empty-string refresh token is skipped), then the access token if
truthy, then clears the in-memory token and saves. There is no try/catch, so
a throwing `tokenRevocation` call aborts the method (`.error`, carrying the
trace up to that point). `revokeOk t` is the network outcome of
`client.tokenRevocation` on token string `t`. -/
def revokeToken (configPresent : Bool) (tok : Option StoredToken)
    (revokeOk : String → Bool) : Except RevokeOutcome RevokeOutcome :=
  if !configPresent then
    .error ⟨[], false, false⟩
  else
    match tok with
    | none => .ok ⟨[], true, true⟩
    | some t =>
      match t.refresh_token with
      | some rt =>
        if rt != "" then
          if revokeOk rt then revokeAccessStep t [rt] revokeOk
          else .error ⟨[rt], false, false⟩
        else revokeAccessStep t [] revokeOk
      | none => revokeAccessStep t [] revokeOk

-- ------------------------- init / dynamic client registration -------------------------

/-- Result of one `McpOAuth.init` run: the option-level client credentials
after the run, whether a dynamic-registration request was submitted, the
in-memory `oauthData`, the store contents after the run, and whether the
`No client ID available` error was thrown. -/
structure InitOutcome where
  clientId : Option String
  clientSecret : Option String
  registrationAttempted : Bool
  oauthData : StoredOAuthData
  storeAfter : Option StoredOAuthData
  noClientIdError : Bool
deriving Repr, DecidableEq

/-- `McpOAuth.init` from `mcp-oauth.ts` together with
`McpOAuth.dynamicClientRegistration`:
1. load saved data; when present adopt it as `oauthData` and, when no caller
   `clientId` is set, restore the client credentials from `savedData.client`;
2. discover metadata (network outcome `fetchedMetadata`, origin `authBaseUrl`);
3. when still no `clientId` and the metadata has a registration endpoint,
   POST a registration request — on success (`regResponse = some r`) adopt
   `r.client_id`/`r.client_secret`, record them in `oauthData.client` and
   persist via `store.save(oauthData)`; on failure only warn;
4. throw `No client ID available` when no `clientId` was ever obtained. -/
def init (optsClientId optsClientSecret : Option String)
    (stored : Option StoredOAuthData) (fetchedMetadata : Option ServerMetadata)
    (authBaseUrl : String) (regResponse : Option ClientRegistrationResponse) :
    InitOutcome :=
  let oauthData := stored.getD {}
  let loaded : Option String × Option String :=
    if truthy optsClientId then (optsClientId, optsClientSecret)
    else
      match stored with
      | some d =>
        match d.client with
        | some c => (some c.client_id, c.client_secret)
        | none => (optsClientId, optsClientSecret)
      | none => (optsClientId, optsClientSecret)
  let metadata := discoverMetadata authBaseUrl fetchedMetadata
  if !(truthy loaded.1) && truthy metadata.registration_endpoint then
    match regResponse with
    | some r =>
      let newData : StoredOAuthData :=
        { oauthData with
          client := some ⟨r.client_id, r.client_secret, r.client_secret_expires_at⟩ }
      ⟨some r.client_id, r.client_secret, true, newData, some newData,
        !(truthy (some r.client_id))⟩
    | none =>
      ⟨loaded.1, loaded.2, true, oauthData, stored, !(truthy loaded.1)⟩
  else
    ⟨loaded.1, loaded.2, false, oauthData, stored, !(truthy loaded.1)⟩

-- ------------------------- auth-required probe -------------------------

/-- Network outcome of the unauthenticated probe request issued by
`McpOAuth.checkAuthRequired` (`throwHttpErrors: false`, 5s timeout). -/
inductive ProbeOutcome where
  | response (status : Nat)
  | networkError
deriving Repr, DecidableEq

/-- `McpOAuth.checkAuthRequired` from `mcp-oauth.ts`:
`return response.status === 401;` with `catch { return false; }`. -/
def checkAuthRequired : ProbeOutcome → Bool
  | .response s => s == 401
  | .networkError => false

/-- `AuthStatus` from `mcp-client.ts` (the discriminated union returned by
`McpClient.isAuthRequired`). -/
inductive AuthStatus where
  | notRequired
  | requiredAuthenticated
  | requiredUnauthenticated (authorizationRequest : AuthorizationRequest)
deriving Repr, DecidableEq

/-- Trace of one `McpClient.isAuthRequired` call: the returned status,
whether `oauth.init()` ran, and whether `createAuthorizationRequest()` ran. -/
structure AuthCheckTrace where
  status : AuthStatus
  oauthInitialized : Bool
  authRequestCreated : Bool
deriving Repr, DecidableEq

/-- `McpClient.isAuthRequired` from `mcp-client.ts` composed with
`McpClient.checkAuthRequired` (which probes and calls `oauth.init()` only
when the probe reports 401): non-401 probes yield
`{isRequired:false, isAuthenticated:true}` with no OAuth initialization and
no authorization request; otherwise a valid token yields
`{isRequired:true, isAuthenticated:true}`, and an invalid/absent token yields
a fresh `AuthorizationRequest` from `createAuthorizationRequest()`. -/
def isAuthRequired (probe : ProbeOutcome) (hasValidTok : Bool)
    (freshRequest : AuthorizationRequest) : AuthCheckTrace :=
  if !(checkAuthRequired probe) then ⟨.notRequired, false, false⟩
  else if hasValidTok then ⟨.requiredAuthenticated, true, false⟩
  else ⟨.requiredUnauthenticated freshRequest, true, true⟩

-- ------------------------- McpClient.connect HTTPS guard -------------------------

/-- How far one `McpClient.connect` call gets before its first side effect. -/
inductive ConnectStep where
  | cachedClient
  | httpsError (msg : String)
  | transportAttempt
deriving Repr, DecidableEq

/-- JavaScript `String.prototype.startsWith`, as used by the source's HTTPS
guard, modelled over the string's character list. -/
def jsStartsWith (s p : String) : Bool :=
  s.data.take p.data.length == p.data

/-- The entry of `McpClient.connect` from `mcp-client.ts`:
`if (this.client) return this.client;`
`if (!this.url.startsWith('https://')) throw new Error('MCP servers must be HTTPS');`
then (after the auth check) the transport connection is attempted. -/
def connect (url : String) (hasCachedClient : Bool) : ConnectStep :=
  if hasCachedClient then .cachedClient
  else if jsStartsWith url "https://" then .transportAttempt
  else .httpsError "MCP servers must be HTTPS"

/-- `McpClient.getServer` from `mcp-client.ts`: `return this.connect();` -/
def getServer (url : String) (hasCachedClient : Bool) : ConnectStep :=
  connect url hasCachedClient

/-- `McpClient.listTools` from `mcp-client.ts`: its first action is
`await this.getServer()`. -/
def listTools (url : String) (hasCachedClient : Bool) : ConnectStep :=
  getServer url hasCachedClient

/-- `McpClient.callTool` from `mcp-client.ts`: its first action is
`await this.getServer()`. -/
def callTool (url : String) (hasCachedClient : Bool) : ConnectStep :=
  getServer url hasCachedClient

-- ===================== Theorems =====================

/-- Unfolding lemma for `truthy` at `none`. -/
theorem truthy_none_eq : truthy none = false := rfl

/-- Unfolding lemma for `truthy` at `some v`. -/
theorem truthy_some_eq (v : String) : truthy (some v) = (v != "") := rfl

/-- C1: the claim demands that `exchangeCodeForToken(code, state, codeVerifier)`
reject a callback `state` differing from the originating request's state with
no token-exchange request made. In the source both the callback URL's `state`
parameter and the grant's `expectedState` check are filled from the same
caller argument, so the check always passes: with originating state `"orig"`
and callback state `"evil"`, the token-exchange request is still sent — and
it is sent for every `(code, state)` whatsoever. Only the legacy
`waitForCallback` handler rejects a mismatched state. -/
theorem c1_state_check_cannot_fire :
    waitForCallback "orig" (some "evil") none none (some "c") = .stateMismatch
    ∧ tokenExchangeRequestSent "c" "evil" = true
    ∧ (∀ code state : String, tokenExchangeRequestSent code state = true) := by
  refine ⟨by decide, by decide, ?_⟩
  intro code state
  simp [tokenExchangeRequestSent, grantStateAccepted, exchangeCodeForToken]

/-- C2 counterexample: with the single-retry pipeline the claim describes
(retry budget 1) and a server that answers 401 to both the original request
and the retry while a refresh token is held, the hook performs two
refresh-token exchanges, not exactly one — the second 401 triggers a further
refresh before the failure propagates. -/
theorem c2_counterexample :
    runPipeline true 1 [401, 401] = ⟨2, 2, .errorPropagated⟩
    ∧ (runPipeline true 1 [401, 401]).refreshCount ≠ 1 := by
  constructor
  · rfl
  · decide

/-- C2 amended: the `afterResponse` hook keeps no retry count, so each 401
received while a refresh token is held triggers one refresh and one thrown
retry signal; with a pipeline retry budget of `n`, persistent 401s cause
`n + 1` refreshes and `n + 1` requests before the failure propagates. The
number of refreshes is bounded by the pipeline's retry budget plus one, not
by one; a 401 with no refresh token is delivered with no refresh. -/
theorem c2_refresh_per_401 :
    (∀ (n : Nat) (rest : List Nat),
        runPipeline true n (401 :: (List.replicate n 401 ++ rest)) =
          ⟨n + 1, n + 1, .errorPropagated⟩)
    ∧ (∀ (hasRT : Bool) (retries : Nat) (l : List Nat),
        (runPipeline hasRT retries l).refreshCount ≤ retries + 1)
    ∧ (∀ (n : Nat) (rest : List Nat),
        runPipeline false n (401 :: rest) = ⟨0, 1, .delivered 401⟩) := by
  refine ⟨?_, ?_, ?_⟩
  · intro n
    induction n with
    | zero => intro rest; simp [runPipeline, afterResponseHook]
    | succ n ih =>
      intro rest
      have h : List.replicate (n + 1) 401 ++ rest = 401 :: (List.replicate n 401 ++ rest) := by
        simp [List.replicate_succ]
      simp only [runPipeline, afterResponseHook, h]
      simp [ih rest]
  · intro hasRT retries l
    induction l generalizing retries with
    | nil => simp [runPipeline]
    | cons s rest ih =>
      cases hk : afterResponseHook s hasRT with
      | false =>
        rw [runPipeline.eq_def]
        simp [hk]
      | true =>
        cases retries with
        | zero => simp [runPipeline, hk]
        | succ n =>
          have := ih n
          simp only [runPipeline, hk, if_pos]
          simp
          omega
  · intro n rest
    rw [runPipeline.eq_def]
    simp [afterResponseHook]

/-- C3 counterexample: at the exact buffer instant `now = expires_at - 300`
(token expiring at 1000, now 700) the claim requires `hasValidToken` to be
`false` (`now >= expires_at - 300`), but the source uses a strict comparison
(`now > expires_at - 300`) and returns `true`. -/
theorem c3_counterexample :
    hasValidToken (some ⟨"a", none, some 1000, none⟩) 700 = true
    ∧ (700 : Int) ≥ 1000 - 300 := by
  constructor
  · rfl
  · decide

/-- C3 amended: for a held token with a nonzero `expires_at`, `hasValidToken`
returns false exactly when `now > expires_at - 300` (strictly after the
five-minute-buffer instant), i.e. true exactly when `now ≤ expires_at - 300`;
a held token with `expires_at = 0` is treated as having no recorded expiry
(the source guard is a JS falsy check) and yields true, as does a held token
with no `expires_at`; with no token it returns false. The operation is a
pure predicate in the embedding, mirroring the I/O-free source. -/
theorem c3_hasValidToken_characterization (a : String) (rt : Option String)
    (e now : Int) (tt : Option String) :
    hasValidToken none now = false
    ∧ hasValidToken (some ⟨a, rt, none, tt⟩) now = true
    ∧ hasValidToken (some ⟨a, rt, some e, tt⟩) now =
        (e == 0 || decide (now ≤ e - 300)) := by
  refine ⟨rfl, rfl, ?_⟩
  simp only [hasValidToken, isTokenExpired, Option.bind, Option.isSome, Bool.true_and]
  by_cases he : e = 0
  · simp [he]
  · by_cases h : now ≤ e - 300
    · have h2 : ¬ now > e - 300 := by omega
      simp [he, h, h2]
    · have h2 : now > e - 300 := by omega
      simp [he, h, h2]

/-- C4: `getAccessToken` fails with the unauthenticated condition when no
token is held; when the held token is expired per `isTokenExpired` it
performs a refresh when a truthy (non-empty) refresh token exists (returning
the refreshed access token) and fails with the expired-no-refresh condition
otherwise (the source guard is a JS truthy check, so an absent or
empty-string refresh token both fail); on the non-failing paths it returns
the current access token. -/
theorem c4_getAccessToken (now : Int) (r : Option StoredToken) (t u v t2 : StoredToken)
    (ht1 : isTokenExpired t.expires_at now = true)
    (ht2 : truthy t.refresh_token = true)
    (hu : isTokenExpired u.expires_at now = false)
    (hv1 : isTokenExpired v.expires_at now = true)
    (hv2 : truthy v.refresh_token = false) :
    getAccessToken none now r = .error .noToken
    ∧ getAccessToken (some t) now (some t2) = .ok (t2.access_token, 1)
    ∧ getAccessToken (some v) now r = .error .expiredNoRefresh
    ∧ getAccessToken (some u) now r = .ok (u.access_token, 0) := by
  refine ⟨rfl, ?_, ?_, ?_⟩
  · simp [getAccessToken, ht1, ht2]
  · simp [getAccessToken, hv1, hv2]
  · simp [getAccessToken, hu]

/-- C4 witness: concrete run at `now = 1000` with an expired token
(`expires_at = 900`) carrying a refresh token; the refresh result is adopted. -/
theorem c4_witness :
    getAccessToken (some ⟨"old", some "rt", some 900, none⟩) 1000
        (some ⟨"new", none, none, none⟩) = .ok ("new", 1) :=
  (c4_getAccessToken 1000 none ⟨"old", some "rt", some 900, none⟩
    ⟨"fresh", none, none, none⟩ ⟨"stale", none, some 900, none⟩
    ⟨"new", none, none, none⟩ (by decide) (by decide) (by decide) (by decide)
    (by decide)).2.1

/-- C5 counterexample: `reset(false)` is claimed to leave the client
registration data untouched, but the source sets `this.oauthData = {}`,
which also drops the in-memory client registration record. -/
theorem c5_counterexample :
    (reset ⟨⟨some ⟨"abc", none, none⟩, some ⟨"at", none, none, none⟩⟩, some "abc", none,
        some ⟨some ⟨"abc", none, none⟩, none⟩⟩ false).oauthData.client ≠
      (⟨⟨some ⟨"abc", none, none⟩, some ⟨"at", none, none, none⟩⟩, some "abc", none,
        some ⟨some ⟨"abc", none, none⟩, none⟩⟩ : OAuthInstanceState).oauthData.client := by
  decide

/-- C5 amended: `reset(true)` drops the whole in-memory OAuth record (token
and client-registration record alike) and clears the persisted store so that
an immediately following `load()` returns absent; `reset(false)` drops the
whole in-memory record while leaving the persisted store unchanged; only the
option-level client credentials (`opts.clientId`/`opts.clientSecret`) are
untouched by reset. -/
theorem c5_reset (s : OAuthInstanceState) (b : Bool) :
    (reset s true).oauthData = {}
    ∧ JsonOAuthStore.load (reset s true).storeContents = none
    ∧ (reset s false).oauthData = {}
    ∧ (reset s false).storeContents = s.storeContents
    ∧ (reset s b).optsClientId = s.optsClientId
    ∧ (reset s b).optsClientSecret = s.optsClientSecret :=
  ⟨rfl, rfl, rfl, rfl, rfl, rfl⟩

/-- C6 counterexample: with a token holding both an access token `"at"` and a
refresh token `"rt"`, and a revocation endpoint that fails on the refresh
token, the failure propagates immediately: the access token is never
submitted for revocation and the in-memory token is neither cleared nor
persisted — contradicting the claim's independence of the two attempts. -/
theorem c6_counterexample :
    revokeToken true (some ⟨"at", some "rt", none, none⟩) (fun s => s != "rt")
      = .error ⟨["rt"], false, false⟩
    ∧ "at" ∉ (["rt"] : List String) := by
  constructor
  · rfl
  · decide

/-- C6 amended: the two revocation calls are sequential and unguarded — when
the refresh-token revocation throws, the method aborts, skipping the
access-token revocation and the clear/persist steps. On the all-success path
the truthy (non-empty) refresh token, when one is held, and then the truthy
(non-empty) access token are submitted, after which the in-memory token is
cleared and the cleared state persisted; an absent or empty-string refresh
token is skipped (JS truthy check), and the same clearing happens when no
token is held. -/
theorem c6_revokeToken (a r : String) (e : Option Int) (tt : Option String)
    (ha : a ≠ "") (hr : r ≠ "") :
    revokeToken true (some ⟨a, some r, e, tt⟩) (fun _ => true) = .ok ⟨[r, a], true, true⟩
    ∧ (∀ ok : String → Bool, ok r = false →
        revokeToken true (some ⟨a, some r, e, tt⟩) ok = .error ⟨[r], false, false⟩)
    ∧ revokeToken true (some ⟨a, none, e, tt⟩) (fun _ => true) = .ok ⟨[a], true, true⟩
    ∧ revokeToken true (some ⟨a, some "", e, tt⟩) (fun _ => true) = .ok ⟨[a], true, true⟩
    ∧ revokeToken true none (fun _ => true) = .ok ⟨[], true, true⟩ := by
  refine ⟨?_, ?_, ?_, ?_, rfl⟩
  · simp [revokeToken, revokeAccessStep, ha, hr]
  · intro ok hok
    simp [revokeToken, hr, hok]
  · simp [revokeToken, revokeAccessStep, ha]
  · simp [revokeToken, revokeAccessStep, ha]

/-- C6 witness: concrete all-success run with access token `"at"` and refresh
token `"rt"`: both are submitted in order, the token is cleared and the
cleared state persisted. -/
theorem c6_witness :
    revokeToken true (some ⟨"at", some "rt", none, none⟩) (fun _ => true)
      = .ok ⟨["rt", "at"], true, true⟩ :=
  (c6_revokeToken "at" "rt" none none (by decide) (by decide)).1

/-- C7: whenever the discovery fetch fails for any reason (modelled as
`fetched = none`), metadata resolution raises nothing and produces exactly
`{issuer: origin, authorization_endpoint: origin ++ "/authorize",
token_endpoint: origin ++ "/token",
registration_endpoint: origin ++ "/register"}`; a successful fetch is
returned as-is. -/
theorem c7_discovery_fallback (origin : String) (m : ServerMetadata) :
    discoverMetadata origin none =
      ⟨origin, origin ++ "/authorize", origin ++ "/token",
        some (origin ++ "/register"), none, none, none⟩
    ∧ discoverMetadata origin (some m) = m :=
  ⟨rfl, rfl⟩

/-- C8: the auth-required probe returns true exactly when the probed resource
answers HTTP 401; a network failure yields false without throwing; and for
any probe outcome the probe maps to false, `isAuthRequired()` reports
`{isRequired:false, isAuthenticated:true}` with no OAuth initialization and
no authorization request created. -/
theorem c8_probe (s : Nat) (probe : ProbeOutcome) (v : Bool)
    (req : AuthorizationRequest) (h : checkAuthRequired probe = false) :
    checkAuthRequired (.response s) = (s == 401)
    ∧ checkAuthRequired .networkError = false
    ∧ isAuthRequired probe v req = ⟨.notRequired, false, false⟩ := by
  refine ⟨rfl, rfl, ?_⟩
  simp [isAuthRequired, h]

/-- C8 witness: a 200 response — the probe reports no auth required and
`isAuthRequired` reports not-required/authenticated with no flow engaged. -/
theorem c8_witness :
    isAuthRequired (.response 200) false ⟨"u", "s", "cv"⟩ =
      ⟨.notRequired, false, false⟩ :=
  (c8_probe 200 (.response 200) false ⟨"u", "s", "cv"⟩ (by decide)).2.2

/-- C9: when the caller supplied no client id and dynamic registration
succeeds with response `r` (non-empty `client_id`), `init` adopts
`r.client_id`/`r.client_secret` and persists the registration record to the
store immediately; a subsequent `init` on a fresh instance that loads that
stored state reuses the stored registration (same `client_id`) and submits
no registration request. -/
theorem c9_registration_persisted (base : String) (fm : Option ServerMetadata)
    (r : ClientRegistrationResponse) (tok : Option StoredToken)
    (reg2 : Option ClientRegistrationResponse)
    (hreg : truthy (discoverMetadata base fm).registration_endpoint = true)
    (hid : r.client_id ≠ "") :
    init none none none fm base (some r) =
      ⟨some r.client_id, r.client_secret, true,
        ⟨some ⟨r.client_id, r.client_secret, r.client_secret_expires_at⟩, none⟩,
        some ⟨some ⟨r.client_id, r.client_secret, r.client_secret_expires_at⟩, none⟩,
        false⟩
    ∧ (init none none
          (some ⟨some ⟨r.client_id, r.client_secret, r.client_secret_expires_at⟩, tok⟩)
          fm base reg2).registrationAttempted = false
    ∧ (init none none
          (some ⟨some ⟨r.client_id, r.client_secret, r.client_secret_expires_at⟩, tok⟩)
          fm base reg2).clientId = some r.client_id := by
  refine ⟨?_, ?_, ?_⟩
  · simp only [init, truthy_none_eq, truthy_some_eq, hreg, Bool.not_false,
      Bool.true_and, if_false, Bool.false_eq_true, ite_false]
    simp [hid]
  · simp [init, truthy_none_eq, truthy_some_eq, hid]
  · simp [init, truthy_none_eq, truthy_some_eq, hid]

/-- C9 witness: concrete run against an origin whose discovery fails (the
fallback metadata always exposes a registration endpoint); registration
returns `client_id = "abc"`, which is adopted, persisted, and reused without
re-registration by a fresh `init`. -/
theorem c9_witness :
    init none none none none "https://mcp.example.com" (some ⟨"abc", none, none⟩) =
      ⟨some "abc", none, true, ⟨some ⟨"abc", none, none⟩, none⟩,
        some ⟨some ⟨"abc", none, none⟩, none⟩, false⟩ :=
  (c9_registration_persisted "https://mcp.example.com" none ⟨"abc", none, none⟩
    none none (by decide) (by decide)).1

/-- C10: for a `McpClient` whose URL does not start with `https://`, each of
`getServer`, `listTools` and `callTool` (on a fresh, unconnected instance)
fails with the `MCP servers must be HTTPS` error at the entry of `connect`,
before any transport is attempted; for URLs starting with `https://` the
HTTPS guard never fails. -/
theorem c10_https_guard (url u : String) (c : Bool)
    (h1 : jsStartsWith url "https://" = false)
    (h2 : jsStartsWith u "https://" = true) :
    getServer url false = .httpsError "MCP servers must be HTTPS"
    ∧ listTools url false = .httpsError "MCP servers must be HTTPS"
    ∧ callTool url false = .httpsError "MCP servers must be HTTPS"
    ∧ (connect u c = .cachedClient ∨ connect u c = .transportAttempt) := by
  refine ⟨?_, ?_, ?_, ?_⟩
  · simp [getServer, connect, h1]
  · simp [listTools, getServer, connect, h1]
  · simp [callTool, getServer, connect, h1]
  · cases c
    · right; simp [connect, h2]
    · left; simp [connect]

/-- C10 witness: `http://mcp.example.com` is rejected by `getServer` with the
HTTPS error on a fresh instance. -/
theorem c10_witness :
    getServer "http://mcp.example.com" false = .httpsError "MCP servers must be HTTPS" :=
  (c10_https_guard "http://mcp.example.com" "https://mcp.example.com" false
    (by decide) (by decide)).1

end McpClientAuth
